import Mathlib

/-!
Verification development for the Review-Pilot finding-aggregation pipeline
and its resilient external-analysis client.

The JavaScript sources are shallowly embedded:
* mutable module state (`src/utils/copilot.js`) becomes an explicit
  `CopilotState` threaded through the operations;
* the external process invocation (`execFile` of the copilot binary) becomes
  a `TransportOutcome`-valued oracle, one outcome per attempt;
* JS regex literals are transcribed into a small regex AST (`Rx`) matched by
  Brzozowski derivatives, so that `rtest` is `RegExp.prototype.test`;
* floating-point Shannon entropy and the byte-level base64/UTF-8 decoding
  (Node `Buffer`) are oracles supplied to the pipeline, mirroring the spec,
  which declares `entropy(string) -> float` an out-of-scope pure function.
-/

set_option maxRecDepth 20000

namespace ReviewPilot

/-! ## Regex engine (Brzozowski derivatives)

Each JS regex literal appearing in the source is transcribed into an `Rx`
value below, next to its use site.  `rtest` is unanchored search (JS
`test`), `rmatchB` is an anchored whole-string match (used for the
`^...$`-anchored patterns). -/

inductive Rx where
  | emp
  | eps
  | pred (p : Char → Bool)
  | alt (a b : Rx)
  | cat (a b : Rx)
  | star (a : Rx)

def nullable : Rx → Bool
  | .emp => false
  | .eps => true
  | .pred _ => false
  | .alt a b => nullable a || nullable b
  | .cat a b => nullable a && nullable b
  | .star _ => true

def altS : Rx → Rx → Rx
  | .emp, b => b
  | a, .emp => a
  | a, b => .alt a b

def catS : Rx → Rx → Rx
  | .emp, _ => .emp
  | .eps, b => b
  | _, .emp => .emp
  | a, .eps => a
  | a, b => .cat a b

def derivC (c : Char) : Rx → Rx
  | .emp => .emp
  | .eps => .emp
  | .pred p => if p c then .eps else .emp
  | .alt a b => altS (derivC c a) (derivC c b)
  | .cat a b =>
    if nullable a then altS (catS (derivC c a) b) (derivC c b)
    else catS (derivC c a) b
  | .star a => catS (derivC c a) (.star a)

def rmatchL (r : Rx) (l : List Char) : Bool :=
  nullable (l.foldl (fun acc c => derivC c acc) r)

/-- Anchored whole-string match (for `^...$` patterns). -/
def rmatchB (r : Rx) (s : String) : Bool := rmatchL r s.data

def anyChar : Rx := .pred fun _ => true

/-- JS `RegExp.prototype.test`: unanchored search for the pattern. -/
def rtest (r : Rx) (s : String) : Bool :=
  rmatchL (.cat (.star anyChar) (.cat r (.star anyChar))) s.data

def rchar (c : Char) : Rx := .pred fun x => x = c

/-- A literal string, character by character. -/
def rlit (s : String) : Rx := s.data.foldr (fun c acc => Rx.cat (rchar c) acc) .eps

/-- A literal under the JS `i` flag (ASCII case folding). -/
def rliti (s : String) : Rx :=
  s.data.foldr (fun c acc => Rx.cat (.pred fun x => x.toLower = c.toLower) acc) .eps

def ralts (l : List Rx) : Rx := l.foldr Rx.alt .emp

def ropt (r : Rx) : Rx := .alt r .eps

def rplus (r : Rx) : Rx := .cat r (.star r)

/-- `r{n}` : exactly `n` copies of `r` in sequence. -/
def rrep (r : Rx) : Nat → Rx
  | 0 => .eps
  | n + 1 => .cat r (rrep r n)

/-- `r{n,}` : at least `n` copies. -/
def ratLeast (r : Rx) (n : Nat) : Rx := .cat (rrep r n) (.star r)

/-- JS `\s` (the whitespace characters relevant to ASCII source text). -/
def jsWs (c : Char) : Bool :=
  c = ' ' || c = '\t' || c = '\n' || c = '\x0d' || c = '\x0b' || c = '\x0c'

/-- JS `\w`. -/
def jsWordChar (c : Char) : Bool := c.isAlphanum || c = '_'

/-- JS `.` (any character except line terminators). -/
def jsDot (c : Char) : Bool :=
  !(c = '\n' || c = '\x0d' || c = Char.ofNat 0x2028 || c = Char.ofNat 0x2029)

def rws : Rx := .pred jsWs
def rwsStar : Rx := .star rws
def rword : Rx := .pred jsWordChar
def rdigit : Rx := .pred Char.isDigit

/-! ## JS string helpers

These are list-of-characters implementations of the JS string methods the
source uses (the core `String` bindings are byte-position based and do not
reduce inside the kernel, which the concrete evaluations below need). -/

/-- JS `Array.prototype.join(sep)`. -/
def jsJoin (sep : String) (l : List String) : String := String.intercalate sep l

/-- JS `String.prototype.trim`. -/
def jsTrim (s : String) : String :=
  String.mk (((s.data.dropWhile jsWs).reverse.dropWhile jsWs).reverse)

/-- JS `String.prototype.startsWith`. -/
def jsStartsWith (s pre : String) : Bool := pre.data.isPrefixOf s.data

/-- JS `String.prototype.endsWith`. -/
def jsEndsWith (s post : String) : Bool := post.data.isSuffixOf s.data

/-- JS `String.prototype.toLowerCase` (ASCII). -/
def sToLower (s : String) : String := String.mk (s.data.map Char.toLower)

def splitNlGo : List Char → List Char → List String
  | [], acc => [String.mk acc.reverse]
  | '\n' :: r, acc => String.mk acc.reverse :: splitNlGo r []
  | c :: r, acc => splitNlGo r (c :: acc)

/-- JS `String.prototype.split('\n')`. -/
def splitNl (s : String) : List String := splitNlGo s.data []

/-- JS `String.prototype.includes` (substring containment). -/
def substrB (needle hay : String) : Bool :=
  let rec go : List Char → Bool
    | [] => needle.data.isPrefixOf []
    | c :: r => needle.data.isPrefixOf (c :: r) || go r
  go hay.data

/-- Case-insensitive `startsWith` (for `^(...)` patterns under the `i` flag). -/
def startsWithCI (prefixStr s : String) : Bool :=
  (prefixStr.data.map Char.toLower).isPrefixOf (s.data.map Char.toLower)

/-- JS falsy-respecting `a || b` for numbers (`0` is falsy). -/
def jsOrNat (o : Option Nat) (d : Nat) : Nat :=
  match o with
  | some n => if n = 0 then d else n
  | none => d

/-- JS falsy-respecting `a || b` for strings (`''` and `undefined` are falsy). -/
def jsOrStr (o : Option String) (d : String) : String :=
  match o with
  | some s => if s = "" then d else s
  | none => d

/-! ## Resilient external analysis client (`src/utils/copilot.js`)

The module-level mutable singletons (`copilotAvailable`, `sessionCache`,
`consecutiveFailures`, `circuitOpen`, `stats`) become one explicit state
value.  `execCommand`/`runCopilot` become a transport oracle giving the
outcome of each attempt; `err.killed` is `timeout`, `ENOENT`/"not found" is
`notFound`.  `sleep` delays are recorded as the list of backoff durations
(in ms) instead of being waited out. -/

inductive TransportOutcome where
  | success (stdout : String)
  | notFound
  | timeout
  | genericError
deriving DecidableEq, Repr

structure CopilotState where
  copilotAvailable : Option Bool
  sessionCache : List (String × String)
  consecutiveFailures : Nat
  circuitOpen : Bool
  statsCalls : Nat
  statsCacheHits : Nat
  statsFailures : Nat
  statsRetries : Nat
deriving DecidableEq, Repr

/-- The pristine module state at process start. -/
def initialCopilotState : CopilotState :=
  { copilotAvailable := none, sessionCache := [], consecutiveFailures := 0,
    circuitOpen := false, statsCalls := 0, statsCacheHits := 0,
    statsFailures := 0, statsRetries := 0 }

def CIRCUIT_BREAKER_THRESHOLD : Nat := 3

/-- `Map.set`: overwrite in place if the key exists, else append. -/
def cacheSet (m : List (String × String)) (k v : String) : List (String × String) :=
  if (m.lookup k).isSome then
    m.map fun p => if p.1 = k then (k, v) else p
  else
    m ++ [(k, v)]

def recordFailure (s : CopilotState) : CopilotState :=
  let s1 := { s with statsFailures := s.statsFailures + 1,
                     consecutiveFailures := s.consecutiveFailures + 1 }
  if CIRCUIT_BREAKER_THRESHOLD ≤ s1.consecutiveFailures then
    { s1 with circuitOpen := true }
  else s1

/-- Clears the session prompt cache (`clearCopilotCache`). -/
def clearCopilotCache (s : CopilotState) : CopilotState :=
  { s with sessionCache := [] }

/-- Outcome of one `askCopilot` call: the returned value, the successor
module state, the number of transport attempts made, and the backoff delays
slept between attempts (ms). -/
structure AskResult where
  result : Option String
  state : CopilotState
  attempts : Nat
  delays : List Nat
deriving DecidableEq, Repr

def askSuccess (s : CopilotState) (cacheKey stdout : String) : AskResult :=
  let trimmed := jsTrim stdout
  let s1 := { s with
    copilotAvailable := some true,
    consecutiveFailures := 0,
    sessionCache := cacheSet s.sessionCache cacheKey trimmed }
  { result := some trimmed, state := s1, attempts := 1, delays := [] }

/-- The retry loop of `askCopilot` (`for (attempt = 0; attempt <= retries; ...)`).
`rem` is the number of attempts remaining after the current one
(`rem = retries - attempt`); recursion is structural on `rem`. -/
def askLoop (transport : Nat → TransportOutcome) (cacheKey : String)
    (s : CopilotState) (attempt : Nat) : Nat → AskResult
  | 0 =>
    match transport attempt with
    | .success out => askSuccess s cacheKey out
    | .notFound =>
      { result := none, state := { s with copilotAvailable := some false },
        attempts := 1, delays := [] }
    | .timeout => { result := none, state := recordFailure s, attempts := 1, delays := [] }
    | .genericError => { result := none, state := recordFailure s, attempts := 1, delays := [] }
  | rem + 1 =>
    match transport attempt with
    | .success out => askSuccess s cacheKey out
    | .notFound =>
      { result := none, state := { s with copilotAvailable := some false },
        attempts := 1, delays := [] }
    | .timeout =>
      let r := askLoop transport cacheKey
        { s with statsRetries := s.statsRetries + 1 } (attempt + 1) rem
      { result := r.result, state := r.state, attempts := r.attempts + 1,
        delays := (2 ^ attempt * 1000) :: r.delays }
    | .genericError =>
      let r := askLoop transport cacheKey
        { s with statsRetries := s.statsRetries + 1 } (attempt + 1) rem
      { result := r.result, state := r.state, attempts := r.attempts + 1,
        delays := (2 ^ attempt * 1000) :: r.delays }

/-- `askCopilot(prompt, { retries })` with an explicit transport and state.
(The `timeout` option only parameterizes the transport and carries no
further logic, so it is absorbed into the oracle.) -/
def askCopilot (transport : Nat → TransportOutcome) (prompt : String)
    (retries : Nat) (s : CopilotState) : AskResult :=
  if s.copilotAvailable = some false then
    { result := none, state := s, attempts := 0, delays := [] }
  else if s.circuitOpen then
    { result := none, state := s, attempts := 0, delays := [] }
  else
    let cacheKey := (jsTrim prompt).take 200
    match s.sessionCache.lookup cacheKey with
    | some v => { result := some v,
                  state := { s with statsCacheHits := s.statsCacheHits + 1 },
                  attempts := 0, delays := [] }
    | none => askLoop transport cacheKey
        { s with statsCalls := s.statsCalls + 1 } 0 retries

/-- A whole run's worth of sequential `askCopilot` calls, each with its own
transport, prompt and retry budget. -/
def runCalls (calls : List ((Nat → TransportOutcome) × String × Nat))
    (s : CopilotState) : List (Option String) × CopilotState :=
  match calls with
  | [] => ([], s)
  | (t, p, r) :: rest =>
    let a := askCopilot t p r s
    let (os, s1) := runCalls rest a.state
    (a.result :: os, s1)

/-! ## Data model (`src/linters/smart-linter.js`, diff-processor output) -/

inductive Severity where
  | critical
  | error
  | warning
  | info
  | suggestion
deriving DecidableEq, Repr

inductive FindingSource where
  | heuristic
  | copilot
  | ast
  | entropy
  | plugin
deriving DecidableEq, Repr

structure Finding where
  file : String
  line : Option Nat
  severity : Severity
  message : String
  source : FindingSource
deriving DecidableEq, Repr

inductive ChangeKind where
  | add
  | del
  | normal
deriving DecidableEq, Repr

/-- One line-level change inside a hunk (`c.type`, `c.content`, `c.ln`, `c.ln2`). -/
structure Change where
  type : ChangeKind
  content : String
  ln : Option Nat
  ln2 : Option Nat
deriving DecidableEq, Repr

structure Hunk where
  newStart : Nat
  content : String
  changes : List Change
deriving DecidableEq, Repr

/-- `FileChange`: `type` is the change kind string (`'added' | 'modified' |
'deleted' | ...`) as produced by the diff processor. -/
structure FileChange where
  file : String
  type : String
  hunks : List Hunk
deriving DecidableEq, Repr

/-- `{ content: c.content, line: c.ln || c.ln2 || hunk.newStart }` over the
`type === 'add'` changes. -/
def hunkAddedLines (h : Hunk) : List (String × Nat) :=
  (h.changes.filter fun c => c.type = ChangeKind.add).map
    fun c => (c.content, jsOrNat c.ln (jsOrNat c.ln2 h.newStart))

/-! ## Entropy-based secret detection (`src/utils/entropy.js`)

`calculateEntropy` is floating-point Shannon entropy; the spec (§1) treats
`entropy(string) -> float` as an out-of-scope pure function, so it enters
the model as the oracle field `entropy` below (rational-valued).  Node's
`Buffer.from(str, 'base64').toString('utf-8')` byte-level decoding is the
oracle field `b64decode`.  `parse` is `@babel/parser.parse` (external
library); `none` models a parse throw. -/

/-- Babel AST nodes, restricted to the node kinds inspected by
`ast-analyzer.js`.  `line` is `node.loc?.start.line || 0` (0 when the
location is absent).  Any other node kind is `otherNode` with its child
list (traversal still descends into it). -/
inductive JsAst where
  | program (body : List JsAst)
  | exprStmt (line : Nat) (e : JsAst)
  | emptyStmt (line : Nat)
  | blockStmt (line : Nat) (body : List JsAst)
  | tryStmt (line : Nat) (block : List JsAst) (handler : List JsAst)
  | catchClause (line : Nat) (param : Option String) (body : List JsAst)
  | ifStmt (line : Nat) (test : JsAst) (cons : JsAst) (alt : List JsAst)
  | condExpr (line : Nat) (test : JsAst) (cons : JsAst) (alt : JsAst)
  | switchCase (line : Nat) (children : List JsAst)
  | callExpr (line : Nat) (callee : JsAst) (args : List JsAst)
  | memberExpr (line : Nat) (obj : JsAst) (prop : JsAst)
  | identNode (line : Nat) (name : String)
  | strLit (line : Nat) (value : String)
  | assignExpr (line : Nat) (left : JsAst) (right : JsAst)
  | varDeclarator (line : Nat) (id : JsAst) (init : List JsAst)
  | otherNode (line : Nat) (children : List JsAst)
deriving Repr

structure Oracles where
  entropy : String → Rat
  b64decode : String → String
  parse : String → String → Option JsAst

def SECRET_PREFIXES : List String :=
  ["sk-", "pk-", "sk_live_", "pk_live_", "sk_test_", "pk_test_",
   "ghp_", "gho_", "ghu_", "ghs_", "ghr_",
   "AKIA", "ABIA", "ACCA", "ASIA",
   "xoxb-", "xoxp-", "xoxo-", "xapp-",
   "eyJ",
   "SG.",
   "sq0",
   "sk_live", "rk_live"]

/-- `hasSecretPrefix`. -/
def hasSecretPrefix (str : String) : Bool :=
  if str = "" then false
  else SECRET_PREFIXES.any fun p => jsStartsWith str p

/-- `[0-9a-f]` under the `i` flag, resp. `[0-9a-fA-F]`. -/
def hexDigitChar (c : Char) : Bool :=
  c.isDigit || (let l := c.toLower; 'a' ≤ l && l ≤ 'f')

def rhexDigit : Rx := .pred hexDigitChar

/-- `/^[0-9a-f]{8}-[0-9a-f]{4}-[0-9a-f]{4}-[0-9a-f]{4}-[0-9a-f]{12}$/i` -/
def uuidRx : Rx :=
  .cat (rrep rhexDigit 8) (.cat (rchar '-') (.cat (rrep rhexDigit 4)
    (.cat (rchar '-') (.cat (rrep rhexDigit 4) (.cat (rchar '-')
      (.cat (rrep rhexDigit 4) (.cat (rchar '-') (rrep rhexDigit 12))))))))

/-- `/^(true|false|null|undefined|none|yes|no)$/i` -/
def boolWordRx : Rx :=
  ralts [rliti "true", rliti "false", rliti "null", rliti "undefined",
         rliti "none", rliti "yes", rliti "no"]

/-- `/^[\w.-]+@[\w.-]+$/` -/
def emailRx : Rx :=
  let cls := Rx.pred fun c => jsWordChar c || c = '.' || c = '-'
  .cat (rplus cls) (.cat (rchar '@') (rplus cls))

/-- `/^\$\{.*\}$/` -/
def templateVarRx : Rx :=
  .cat (rchar '$') (.cat (rchar '\x7b') (.cat (.star (.pred jsDot)) (rchar '\x7d')))

/-- `/^<.*>$/` -/
def angleTokenRx : Rx :=
  .cat (rchar '<') (.cat (.star (.pred jsDot)) (rchar '>'))

/-- `SAFE_PATTERNS`, each as its JS `test` (the `^`/`$` anchors are part of
the pattern, so anchored matching is used; the URL pattern is only
`^`-anchored). -/
def SAFE_PATTERNS : List (String → Bool) :=
  [fun s => rmatchB uuidRx s,
   fun s => rmatchB (rplus rdigit) s,
   fun s => rmatchB boolWordRx s,
   fun s => jsStartsWith s "https://" || jsStartsWith s "http://",
   fun s => rmatchB emailRx s,
   fun s => rmatchB templateVarRx s,
   fun s => rmatchB angleTokenRx s]

/-- `isHighEntropyString(str, threshold, minLength)`. -/
def isHighEntropyString (env : Oracles) (str : String) (threshold : Rat)
    (minLength : Nat) : Bool :=
  if str = "" || str.length < minLength then false
  else if SAFE_PATTERNS.any fun p => p str then false
  else threshold < env.entropy str

def b64AlphaChar (c : Char) : Bool := c.isAlphanum || c = '+' || c = '/'

/-- `/^[A-Za-z0-9+/]{16,}={0,2}$/` -/
def b64ShapeRx : Rx :=
  .cat (ratLeast (.pred b64AlphaChar) 16) (ralts [.eps, rlit "=", rlit "=="])

structure B64Result where
  isBase64 : Bool
  decoded : Option String
  isSecret : Bool
deriving DecidableEq, Repr

/-- `detectBase64Secrets`.  The Node decode (`Buffer.from(...,'base64')`) is
lenient and does not throw on the strings admitted by the shape regex, so
the `catch` branch of the source is unreachable in the model.  The
`printableRatio < 0.5` comparison is `NaN < 0.5 = false` when the decoded
string is empty, hence the explicit non-emptiness conjunct. -/
def detectBase64Secrets (env : Oracles) (str : String) : B64Result :=
  if str = "" || str.length < 16 then
    { isBase64 := false, decoded := none, isSecret := false }
  else if !rmatchB b64ShapeRx (jsTrim str) then
    { isBase64 := false, decoded := none, isSecret := false }
  else
    let decoded := env.b64decode (jsTrim str)
    let printableCount :=
      (decoded.data.filter fun c => 0x20 ≤ c.toNat && c.toNat ≤ 0x7e).length
    if decoded.length ≠ 0 && 2 * printableCount < decoded.length then
      { isBase64 := true, decoded := none, isSecret := false }
    else
      let looksLikeSecret :=
        (decoded.data.any fun c => c = ':' || c = '=') ||
          isHighEntropyString env decoded (7 / 2 : Rat) 8
      { isBase64 := true, decoded := some decoded, isSecret := looksLikeSecret }

/-- `detectHexSecrets`. -/
def detectHexSecrets (env : Oracles) (str : String) : Bool :=
  if str = "" || str.length < 32 then false
  else if !(str.data.all hexDigitChar) || str.length % 2 ≠ 0 then false
  else (3 : Rat) < env.entropy str

inductive Confidence where
  | high
  | medium
  | low
deriving DecidableEq, Repr

structure SecretResult where
  isSecret : Bool
  reason : Option String
  confidence : Option Confidence
deriving DecidableEq, Repr

/-- `/password|secret|token|key|auth|cred|api.?key/i` — this pattern appears
verbatim both in `detectSecret` (entropy.js) and in the two secret visitors
of `ast-analyzer.js`. -/
def securityVarRx : Rx :=
  ralts [rliti "password", rliti "secret", rliti "token", rliti "key",
         rliti "auth", rliti "cred",
         .cat (rliti "api") (.cat (ropt (.pred jsDot)) (rliti "key"))]

/-- `detectSecret(str, context)`. -/
def detectSecret (env : Oracles) (str context : String) : SecretResult :=
  if str = "" || str.length < 8 then
    { isSecret := false, reason := none, confidence := none }
  else if hasSecretPrefix str then
    { isSecret := true, reason := some "Known secret prefix detected",
      confidence := some .high }
  else if (detectBase64Secrets env str).isSecret then
    { isSecret := true, reason := some "Base64-encoded credential detected",
      confidence := some .high }
  else if detectHexSecrets env str then
    { isSecret := true, reason := some "Hex-encoded secret detected",
      confidence := some .medium }
  else if rtest securityVarRx context && isHighEntropyString env str (7 / 2 : Rat) 12 then
    { isSecret := true, reason := some "High-entropy value in security-sensitive variable",
      confidence := some .high }
  else if isHighEntropyString env str (5 : Rat) 24 then
    { isSecret := true, reason := some "High-entropy string (potential secret)",
      confidence := some .low }
  else { isSecret := false, reason := none, confidence := none }

/-! ## Syntax findings adapter (`src/analyzers/ast-analyzer.js`)

`babelParser.parse` is the external `parse` oracle; the `traverse` visitors
are translated below.  Findings are collected in depth-first pre-order
(Babel's `enter` order).  The `findParent(isIfStatement || isConditional ||
isSwitchCase)` and `findParent(isCatchClause)` queries become the
`inCond`/`inCatch` flags carried down the traversal; the
`path.parent.type === 'AssignmentExpression' && path.parent.left === node`
query becomes the `assignLeft` flag set only for the immediate left child
of an assignment. -/

def SUPPORTED_EXTENSIONS : List String := [".js", ".jsx", ".ts", ".tsx", ".mjs"]

/-- `canAnalyze`. -/
def canAnalyze (filename : String) : Bool :=
  SUPPORTED_EXTENSIONS.any fun ext => jsEndsWith filename ext

structure AstFinding where
  line : Nat
  message : String
  severity : Severity
deriving DecidableEq, Repr

/-- `callee.property.name || callee.property.value` and `prop.name`
projections: an `Identifier` contributes its name, a `StringLiteral` its
value, anything else is `undefined`. -/
def memberPropName : JsAst → Option String
  | .identNode _ n => some n
  | .strLit _ v => some v
  | _ => none

/-- JS `toFixed(1)` on the (nonnegative) entropy value, modelled as
round-half-up to one decimal on the rational oracle value. -/
def fmtFixed1 (q : Rat) : String :=
  let n : Int := (q * 10 + 1 / 2).floor
  toString (n / 10) ++ "." ++ toString ((n % 10).natAbs)

/-- The string-literal secret check shared by the `AssignmentExpression` and
`VariableDeclarator` visitors (`value.length > 4`, `entropy > 3.5`). -/
def secVarFinding (env : Oracles) (line : Nat) (varName : String)
    (value : JsAst) (messageHead : String) : List AstFinding :=
  if !rtest securityVarRx varName then []
  else
    match value with
    | .strLit _ v =>
      if 4 < v.length && (7 / 2 : Rat) < env.entropy v then
        [{ line := line,
           message := messageHead ++ varName ++ "\" (entropy: " ++
             fmtFixed1 (env.entropy v) ++ ")",
           severity := .critical }]
      else []
    | _ => []

/-- `body.length === 0 || (body.length === 1 && body[0].type === 'EmptyStatement')`. -/
def isEmptyCatchBody : List JsAst → Bool
  | [] => true
  | [x] => match x with | .emptyStmt _ => true | _ => false
  | _ => false

/-- The `CallExpression` visitor: console statements outside
conditional/catch blocks, and `eval()` calls. -/
def callExprFindings (inCond inCatch : Bool) (line : Nat) (callee : JsAst) :
    List AstFinding :=
  let consoleF :=
    match callee with
    | .memberExpr _ obj prop =>
      (match obj with
       | .identNode _ oname =>
         if oname = "console" then
           match memberPropName prop with
           | some m =>
             if !inCond && !inCatch && (m = "log" || m = "debug" || m = "info") then
               [{ line := line,
                  message := "Console." ++ m ++ "() statement outside conditional/catch block",
                  severity := .warning }]
             else []
           | none => []
         else []
       | _ => [])
    | _ => []
  let evalF :=
    match callee with
    | .identNode _ n =>
      if n = "eval" then
        [{ line := line,
           message := "Use of eval() — security risk; consider safer alternatives",
           severity := .error }]
      else []
    | _ => []
  consoleF ++ evalF

mutual

/-- One `traverse` step: the node's own visitor findings followed by its
children's, in child order. -/
def collectNode (env : Oracles) (inCond inCatch assignLeft : Bool) :
    JsAst → List AstFinding
  | .program body => collectList env inCond inCatch body
  | .exprStmt _ e => collectNode env inCond inCatch false e
  | .emptyStmt _ => []
  | .blockStmt _ body => collectList env inCond inCatch body
  | .tryStmt _ block handler =>
    collectList env inCond inCatch block ++ collectList env inCond inCatch handler
  | .catchClause line _ body =>
    (if isEmptyCatchBody body then
      [{ line := line, message := "Empty catch block — errors are silently swallowed",
         severity := .warning }]
     else []) ++ collectList env inCond true body
  | .ifStmt _ test cons alt =>
    collectNode env true inCatch false test ++ collectNode env true inCatch false cons ++
      collectList env true inCatch alt
  | .condExpr _ test cons alt =>
    collectNode env true inCatch false test ++ collectNode env true inCatch false cons ++
      collectNode env true inCatch false alt
  | .switchCase _ children => collectList env true inCatch children
  | .callExpr line callee args =>
    callExprFindings inCond inCatch line callee ++
      collectNode env inCond inCatch false callee ++ collectList env inCond inCatch args
  | .memberExpr line obj prop =>
    (match prop with
     | .identNode _ pn =>
       if (pn = "innerHTML" || pn = "outerHTML") && assignLeft then
         [{ line := line,
            message := "Direct " ++ pn ++ " assignment — XSS risk; use textContent or sanitize",
            severity := .warning }]
       else []
     | _ => []) ++
      collectNode env inCond inCatch false obj ++ collectNode env inCond inCatch false prop
  | .identNode _ _ => []
  | .strLit _ _ => []
  | .assignExpr line left right =>
    (match left with
     | .identNode _ n => secVarFinding env line n right
         "High-entropy string assigned to security variable \""
     | .memberExpr _ _ prop => secVarFinding env line
         (match prop with | .identNode _ n => n | _ => "") right
         "High-entropy string assigned to security variable \""
     | _ => []) ++
      collectNode env inCond inCatch true left ++ collectNode env inCond inCatch false right
  | .varDeclarator line id init =>
    (match id, init with
     | .identNode _ n, [v] => secVarFinding env line n v
         "High-entropy string in security variable \""
     | _, _ => []) ++
      collectNode env inCond inCatch false id ++ collectList env inCond inCatch init
  | .otherNode _ children => collectList env inCond inCatch children

def collectList (env : Oracles) (inCond inCatch : Bool) :
    List JsAst → List AstFinding
  | [] => []
  | x :: r => collectNode env inCond inCatch false x ++ collectList env inCond inCatch r

end

/-- `analyzeWithAST(code, filename)`; a parse throw (`none`) degrades to no
findings. -/
def analyzeWithAST (env : Oracles) (code filename : String) : List AstFinding :=
  if code = "" || !canAnalyze filename then []
  else
    match env.parse code filename with
    | none => []
    | some ast => collectNode env false false false ast

/-! ## Plugin sandbox (`src/linters/plugin-loader.js`)

`loadPlugins` walks the filesystem and dynamically imports modules; its
validated result enters the model as the plugin list handed to `analyze`.
A plugin's `analyze(file, content)` is a function into `PluginOutcome`:
`throws` for an exception, `nonArray` for a non-array return value, and
`arr` for an array of result entries.  A `nullish` entry models a
non-object array element: mapping over it throws on property access, which
the `catch` converts to zero findings for the whole plugin/file pair. -/

inductive PluginEntry where
  | nullish
  | obj (line : Option Nat) (severity : Option Severity) (message : Option String)
deriving DecidableEq, Repr

inductive PluginOutcome where
  | throws
  | nonArray
  | arr (entries : List PluginEntry)
deriving DecidableEq, Repr

structure Plugin where
  name : String
  severity : Option Severity
  analyze : String → String → PluginOutcome

/-- `r.line || null` (`0` is falsy). -/
def pluginLine (o : Option Nat) : Option Nat :=
  match o with
  | some n => if n = 0 then none else some n
  | none => none

/-- `runPlugin(plugin, file, content)`, with its error isolation. -/
def runPlugin (p : Plugin) (file content : String) : List Finding :=
  match p.analyze file content with
  | .throws => []
  | .nonArray => []
  | .arr entries =>
    if entries.any (fun e => match e with | .nullish => true | _ => false) then []
    else
      entries.flatMap fun e =>
        match e with
        | .nullish => []
        | .obj line sev msg =>
          [{ file := file,
             line := pluginLine line,
             severity := (sev.getD (p.severity.getD .warning)),
             message := "[" ++ p.name ++ "] " ++ msg.getD "undefined",
             source := .plugin }]

/-! ## False-positive learning filter (`src/ml/false-positive-filter.js`)

The Naive Bayes library (`bayes`) is external; its `categorize` call is an
oracle `String → Except Unit String` where `error` models a classifier
throw.  `initialize`/`load`/`save` are filesystem effects; a successfully
initialized filter is just a `categorize` oracle handed to `analyze`. -/

/-- The finding shape `shouldReport` consumes: `message` is always present,
`context` and `file` are optional. -/
structure FpFinding where
  message : String
  context : Option String
  file : Option String
deriving DecidableEq, Repr

/-- `buildFeatureText`: the truthy parts of message/context/file joined by a
space (`''` and `undefined` are falsy). -/
def buildFeatureText (f : FpFinding) : String :=
  jsJoin " "
    ((if f.message = "" then [] else [f.message]) ++
     (match f.context with
      | some c => if c = "" then [] else [c]
      | none => []) ++
     (match f.file with
      | some c => if c = "" then [] else [c]
      | none => []))

structure ReportDecision where
  shouldReport : Bool
  confidence : Rat
deriving DecidableEq, Repr

/-- `FalsePositiveFilter.shouldReport(finding)`: ask the classifier for a
category; any classifier failure defaults to reporting. -/
def FalsePositiveFilter.shouldReport (categorize : String → Except Unit String)
    (f : FpFinding) : ReportDecision :=
  match categorize (buildFeatureText f) with
  | .ok category => { shouldReport := category = "report", confidence := 7 / 10 }
  | .error _ => { shouldReport := true, confidence := 1 / 2 }

/-! ## Finding aggregation pipeline (`src/linters/smart-linter.js`) -/

def rQuoteSD : Rx := .pred fun c => c = Char.ofNat 39 || c = '"'
def rNotQuoteSD : Rx := .pred fun c => !(c = Char.ofNat 39 || c = '"')

/-- `/console\.(log|debug|info)\(/g` -/
def consoleRx : Rx :=
  .cat (rlit "console.") (.cat (ralts [rlit "log", rlit "debug", rlit "info"]) (rlit "("))

/-- `/TODO|FIXME|HACK|XXX/g` -/
def todoRx : Rx := ralts [rlit "TODO", rlit "FIXME", rlit "HACK", rlit "XXX"]

/-- `/debugger;/g` -/
def debuggerRx : Rx := rlit "debugger;"

/-- `/(password|secret|api_?key|token)\s*[:=]\s*['"][^'"]+['"]/gi` -/
def secretAssignRx : Rx :=
  .cat (ralts [rliti "password", rliti "secret",
               .cat (rliti "api") (.cat (ropt (rchar '_')) (rliti "key")),
               rliti "token"])
    (.cat rwsStar (.cat (.pred fun c => c = ':' || c = '=')
      (.cat rwsStar (.cat rQuoteSD (.cat (rplus rNotQuoteSD) rQuoteSD)))))

/-- `/\.catch\(\s*\)/g` -/
def emptyCatchCallRx : Rx := .cat (rlit ".catch(") (.cat rwsStar (rlit ")"))

/-- `/eval\s*\(/g` -/
def evalCallRx : Rx := .cat (rlit "eval") (.cat rwsStar (rlit "("))

/-- `/any\s*[;,)]/g` -/
def anyTypeRx : Rx :=
  .cat (rlit "any") (.cat rwsStar (.pred fun c => c = ';' || c = ',' || c = ')'))

/-- `/sleep\s*\(\s*\d{4,}/g` -/
def sleepRx : Rx :=
  .cat (rlit "sleep") (.cat rwsStar (.cat (rlit "(") (.cat rwsStar (ratLeast rdigit 4))))

/-- `/\/\/\s*@ts-ignore/g` -/
def tsIgnoreRx : Rx := .cat (rlit "//") (.cat rwsStar (rlit "@ts-ignore"))

/-- `/process\.exit/g` -/
def processExitRx : Rx := rlit "process.exit"

/-- `HEURISTIC_RULES`: `[regex, severity, message template]`, in source
order. -/
def HEURISTIC_RULES : List (Rx × Severity × String) :=
  [(consoleRx, .warning, "Leftover console statement"),
   (todoRx, .info, "Contains TODO/FIXME comment"),
   (debuggerRx, .error, "Debugger statement left in code"),
   (secretAssignRx, .critical, "Potential hardcoded secret or credential"),
   (emptyCatchCallRx, .warning, "Empty catch block — errors are silently swallowed"),
   (evalCallRx, .error, "Use of eval() — security risk"),
   (anyTypeRx, .info, "TypeScript \"any\" type usage — consider a stricter type"),
   (sleepRx, .warning, "Long sleep/delay — potential performance issue"),
   (tsIgnoreRx, .warning, "@ts-ignore suppresses type checking"),
   (processExitRx, .warning, "process.exit() call — may cause abrupt termination")]

def sQuoteChar : Char := Char.ofNat 39
def bTickChar : Char := Char.ofNat 96

def quote3 (c : Char) : Bool := c = sQuoteChar || c = '"' || c = bTickChar

/-! ### `extractStrings` — a direct scanner for the global exec loop over
`/(?:const|let|var)\s+(\w+)\s*=\s*['"`]([^'"`]{8,})['"`]/g`.  Maximal-run
scanning is exact here: each greedy piece is followed by a character
excluded from its class, so no backtracking can produce a different
match. -/

def kwSplit3 (l : List Char) : Option (List Char) :=
  if ("const".data).isPrefixOf l then some (l.drop 5)
  else if ("let".data).isPrefixOf l then some (l.drop 3)
  else if ("var".data).isPrefixOf l then some (l.drop 3)
  else none

def tryExtractAt (l : List Char) : Option (String × String × List Char) :=
  match kwSplit3 l with
  | none => none
  | some r1 =>
    let (ws1, r2) := r1.span jsWs
    if ws1.isEmpty then none
    else
      let (name, r3) := r2.span jsWordChar
      if name.isEmpty then none
      else
        let (_, r4) := r3.span jsWs
        match r4 with
        | '=' :: r5 =>
          let (_, r6) := r5.span jsWs
          match r6 with
          | q :: r7 =>
            if quote3 q then
              let (val, r8) := r7.span fun c => !quote3 c
              if val.length < 8 then none
              else
                match r8 with
                | q2 :: r9 => if quote3 q2 then some (String.mk name, String.mk val, r9) else none
                | [] => none
            else none
          | [] => none
        | _ => none

def extractGo : Nat → List Char → List (String × String)
  | 0, _ => []
  | _, [] => []
  | fuel + 1, c :: r =>
    match tryExtractAt (c :: r) with
    | some (n, v, rest) => (n, v) :: extractGo fuel rest
    | none => extractGo fuel r

/-- `extractStrings(line)`: the `(context, value)` capture pairs. -/
def extractStrings (line : String) : List (String × String) :=
  extractGo line.data.length line.data

/-! ### The base64-literal scanner for
`content.match(/['"`]([A-Za-z0-9+/]{24,}={0,2})['"`]/g)`; each returned
string is the captured group (the full match minus its two quotes, i.e.
`match.slice(1, -1)`). -/

/-- `={0,2}` (greedy, with its backtracking) followed by a closing quote:
returns the consumed equals signs and the rest after the quote. -/
def eqThenQuote : List Char → Option (List Char × List Char)
  | '=' :: '=' :: q :: rest => if quote3 q then some (['=', '='], rest) else none
  | '=' :: q :: rest => if quote3 q then some (['='], rest) else none
  | q :: rest => if quote3 q then some ([], rest) else none
  | _ => none

def tryB64At (l : List Char) : Option (String × List Char) :=
  match l with
  | q :: r =>
    if quote3 q then
      let (run, r2) := r.span b64AlphaChar
      if run.length < 24 then none
      else
        match eqThenQuote r2 with
        | some (eqs, rest) => some (String.mk (run ++ eqs), rest)
        | none => none
    else none
  | [] => none

def b64Go : Nat → List Char → List String
  | 0, _ => []
  | _, [] => []
  | fuel + 1, c :: r =>
    match tryB64At (c :: r) with
    | some (v, rest) => v :: b64Go fuel rest
    | none => b64Go fuel r

def b64Matches (line : String) : List String :=
  b64Go line.data.length line.data

/-! ### `checkFunctionLength` and its per-line
`/(?:function|const|let|var)\s+(\w+)|(\w+)\s*(?:=\s*)?\(.*\)\s*(?:=>)?\s*\{/`
match.  The regex is used without `g`, so only the leftmost match (and its
two capture groups) matters; alternative 1 is preferred at each start
position.  As with `extractStrings`, every greedy piece is followed by a
character outside its class except `.*\)`, whose backtracking is an
existential search for a closing paren whose tail matches
`\s*(?:=>)?\s*\{`. -/

def dropWsL (l : List Char) : List Char := l.dropWhile jsWs

/-- `\s*(?:=>)?\s*\{` (with the `(?:=>)?` backtracking resolved: skipping a
present `=>` leaves `=` where `{` is required, which always fails). -/
def arrowBraceTail (l : List Char) : Bool :=
  match dropWsL l with
  | '=' :: '>' :: r =>
    match dropWsL r with
    | '\x7b' :: _ => true
    | _ => false
  | '\x7b' :: _ => true
  | _ => false

/-- `.*\)` then `arrowBraceTail`: some split with only `.`-matchable
characters before a `)` whose tail matches. -/
def hasCloseParen : List Char → Bool
  | [] => false
  | c :: r => (c = ')' && arrowBraceTail r) || (jsDot c && hasCloseParen r)

def kwSplit4 (l : List Char) : Option (List Char) :=
  if ("function".data).isPrefixOf l then some (l.drop 8)
  else kwSplit3 l

/-- Alternative 1: `(?:function|const|let|var)\s+(\w+)`; returns group 1. -/
def alt1At (l : List Char) : Option String :=
  match kwSplit4 l with
  | none => none
  | some r1 =>
    let (ws1, r2) := r1.span jsWs
    if ws1.isEmpty then none
    else
      let (w, _) := r2.span jsWordChar
      if w.isEmpty then none else some (String.mk w)

/-- Alternative 2: `(\w+)\s*(?:=\s*)?\(.*\)\s*(?:=>)?\s*\{`; returns group 2. -/
def alt2At (l : List Char) : Option String :=
  let (w, r1) := l.span jsWordChar
  if w.isEmpty then none
  else
    let (_, r2) := r1.span jsWs
    let r3 :=
      match r2 with
      | '=' :: r => dropWsL r
      | _ => r2
    match r3 with
    | '(' :: r4 => if hasCloseParen r4 then some (String.mk w) else none
    | _ => none

/-- `line.match(funcRegex)`: leftmost match, alternative 1 preferred;
returns `(group1?, group2?)`. -/
def findFuncMatch : List Char → Option (Option String × Option String)
  | [] => none
  | c :: r =>
    match alt1At (c :: r) with
    | some n => some (some n, none)
    | none =>
      match alt2At (c :: r) with
      | some n => some (none, some n)
      | none => findFuncMatch r

def MAX_FUNCTION_LINES : Nat := 50

structure CflState where
  funcStart : Option Nat
  braceDepth : Int
  funcName : String
  acc : List Finding

def countChar (c : Char) (s : String) : Nat := s.data.count c

def cflStep (file : String) (startLine : Nat) (st : CflState) (p : Nat × String) :
    CflState :=
  let i := p.1
  let line := p.2
  let fm := findFuncMatch line.data
  let st1 :=
    match fm with
    | some g =>
      if st.braceDepth = 0 then
        { st with funcStart := some i,
                  funcName := jsOrStr g.1 (jsOrStr g.2 "anonymous"),
                  braceDepth := 0 }
      else st
    | none => st
  let opens := countChar '\x7b' line
  let closes := countChar '\x7d' line
  let st2 := { st1 with braceDepth := st1.braceDepth + (opens : Int) - (closes : Int) }
  match st2.funcStart with
  | some fs =>
    if st2.braceDepth ≤ 0 then
      let funcLength := i - fs + 1
      let acc2 :=
        if MAX_FUNCTION_LINES < funcLength then
          st2.acc ++
            [{ file := file, line := some (startLine + fs), severity := .warning,
               message := "Function \"" ++ st2.funcName ++ "\" is " ++
                 toString funcLength ++ " lines long (max recommended: " ++
                 toString MAX_FUNCTION_LINES ++ ")",
               source := .heuristic }]
        else st2.acc
      { funcStart := none, braceDepth := 0, funcName := st2.funcName, acc := acc2 }
    else st2
  | none => st2

/-- `checkFunctionLength(content, file, startLine)`. -/
def checkFunctionLength (content file : String) (startLine : Nat) : List Finding :=
  ((splitNl content).enum.foldl (cflStep file startLine)
    { funcStart := none, braceDepth := 0, funcName := "", acc := [] }).acc

/-! ### `scanEnvFile` -/

def ENV_SECRET_KEYS1 : List String :=
  ["API_KEY", "SECRET_KEY", "ACCESS_TOKEN", "AUTH_TOKEN", "PRIVATE_KEY",
   "DATABASE_URL", "DB_PASSWORD", "AWS_SECRET"]

def ENV_SECRET_KEYS2 : List String :=
  ["STRIPE_SECRET", "SENDGRID_API_KEY", "TWILIO_AUTH_TOKEN", "GITHUB_TOKEN",
   "NPM_TOKEN"]

/-- `ENV_SECRET_KEYS.some(p => p.test(key))` — both patterns are
`^(alt|...)` under `i`, i.e. case-insensitive prefix tests. -/
def isEnvSecretKey (key : String) : Bool :=
  ENV_SECRET_KEYS1.any (fun p => startsWithCI p key) ||
    ENV_SECRET_KEYS2.any (fun p => startsWithCI p key)

def envKeyStartChar (c : Char) : Bool := ('A' ≤ c && c ≤ 'Z') || c = '_'
def envKeyChar (c : Char) : Bool := envKeyStartChar c || c.isDigit

/-- `content.match(/^([A-Z_][A-Z0-9_]*)=(.+)$/)`: the `(key, value)`
captures; `.` excludes line terminators, so a value containing one fails
the (non-multiline) `$` anchor. -/
def envMatch (content : String) : Option (String × String) :=
  match content.data with
  | c :: r =>
    if envKeyStartChar c then
      let (krun, r2) := r.span envKeyChar
      match r2 with
      | '=' :: v =>
        if v.isEmpty then none
        else if v.all jsDot then some (String.mk (c :: krun), String.mk v)
        else none
      | _ => none
    else none
  | [] => none

def PLACEHOLDER_PREFIXES : List String :=
  ["your_", "<", "changeme", "xxx", "placeholder"]

/-- `scanEnvFile(file)`. -/
def scanEnvFile (f : FileChange) : List Finding :=
  f.hunks.flatMap fun h =>
    (hunkAddedLines h).filterMap fun p =>
      match envMatch p.1 with
      | none => none
      | some kv =>
        if isEnvSecretKey kv.1 && 0 < (jsTrim kv.2).length then
          if PLACEHOLDER_PREFIXES.any (fun q => startsWithCI q (jsTrim kv.2)) then none
          else some { file := f.file, line := some p.2, severity := .critical,
                      message := "Secret in .env file: " ++ kv.1 ++ "=" ++
                        kv.2.take 20 ++ "...",
                      source := .entropy }
        else none

/-! ### The external semantic layer: `analyzeWithCopilot` /
`parseCopilotResponse` -/

def META_PREFIXES : List String := ["Here", "The code", "Overall"]

/-- The character class of `/^[-*•\d.)\s]+/`. -/
def bulletChar (c : Char) : Bool :=
  c = '-' || c = '*' || c = Char.ofNat 0x2022 || c.isDigit || c = '.' ||
    c = ')' || jsWs c

/-- `parseCopilotResponse(response, file, startLine)`.  The source computes
a default severity of `suggestion`, upgrades on error/warning keywords, and
re-assigns `suggestion` on consider/suggest/could (a no-op kept out of the
model since it cannot change the value). -/
def parseCopilotResponse (response file : String) (startLine : Nat) : List Finding :=
  ((splitNl response).filter fun l => jsTrim l ≠ "").filterMap fun line =>
    if META_PREFIXES.any (fun q => jsStartsWith line q) then none
    else
      let lower := sToLower line
      let severity : Severity :=
        if substrB "error" lower || substrB "bug" lower || substrB "crash" lower then
          .error
        else if substrB "warn" lower || substrB "risk" lower || substrB "issue" lower then
          .warning
        else .suggestion
      let message := jsTrim (String.mk (line.data.dropWhile bulletChar))
      if 10 < message.length then
        some { file := file, line := some startLine, severity := severity,
               message := message, source := .copilot }
      else none

def copilotPromptPreamble : String :=
  "Review this code change for potential issues. Check for logic errors, race conditions, null/undefined risks, error handling gaps, and edge cases. Be concise — list only real issues, not style preferences:\n\n"

/-- `analyzeWithCopilot(codeSnippet, file, startLine)`; `askCopilot` is
called with its default `retries = 3`.  A falsy (null or empty) response
yields no findings. -/
def analyzeWithCopilot (transport : String → Nat → TransportOutcome)
    (codeSnippet file : String) (startLine : Nat) (s : CopilotState) :
    List Finding × CopilotState :=
  let prompt := copilotPromptPreamble ++ codeSnippet.take 2000
  let a := askCopilot (transport prompt) prompt 3 s
  match a.result with
  | none => ([], a.state)
  | some response =>
    if response = "" then ([], a.state)
    else (parseCopilotResponse response file startLine, a.state)

/-! ### Per-line layers and the per-hunk / per-file / whole-run drivers -/

/-- Layer 1: the heuristic regex table over one added line. -/
def heuristicLineFindings (file content : String) (line : Nat) : List Finding :=
  HEURISTIC_RULES.filterMap fun rule =>
    if rtest rule.1 content then
      some { file := file, line := some line, severity := rule.2.1,
             message := rule.2.2 ++ ": " ++ (jsTrim content).take 80,
             source := .heuristic }
    else none

/-- Layer 2: entropy-based secret detection over the extracted string
assignments of one added line. -/
def entropyLineFindings (env : Oracles) (file content : String) (line : Nat) :
    List Finding :=
  (extractStrings content).filterMap fun p =>
    let r := detectSecret env p.2 p.1
    if r.isSecret then
      some { file := file, line := some line,
             severity := if r.confidence = some .high then .critical else .warning,
             message := (r.reason.getD "null") ++ ": " ++ p.2.take 40 ++ "...",
             source := .entropy }
    else none

/-- Layer 3: base64-encoded secret detection over one added line. -/
def b64LineFindings (env : Oracles) (file content : String) (line : Nat) :
    List Finding :=
  (b64Matches content).filterMap fun value =>
    if (detectBase64Secrets env value).isSecret then
      some { file := file, line := some line, severity := .critical,
             message := "Base64-encoded credential detected: " ++ value.take 30 ++ "...",
             source := .entropy }
    else none

/-- One hunk of `analyze`: layers 1–3 per added line, then the function
length check, the AST layer and the external layer (the last two gated on
at least 3 added lines).  The external transport is indexed by the
`stats.calls` counter at call time, so distinct calls may behave
differently. -/
def analyzeHunk (env : Oracles) (transport : Nat → String → Nat → TransportOutcome)
    (f : FileChange) (h : Hunk) (s : CopilotState) : List Finding × CopilotState :=
  let added := hunkAddedLines h
  let lineF := added.flatMap fun p =>
    heuristicLineFindings f.file p.1 p.2 ++
      entropyLineFindings env f.file p.1 p.2 ++
      b64LineFindings env f.file p.1 p.2
  let funcF := checkFunctionLength h.content f.file h.newStart
  let astF :=
    if canAnalyze f.file && 3 ≤ added.length then
      let snippet := jsJoin "\n" (added.map Prod.fst)
      (analyzeWithAST env snippet f.file).map fun af =>
        { file := f.file,
          line := some (if af.line = 0 then h.newStart else h.newStart + af.line - 1),
          severity := af.severity, message := af.message, source := .ast }
    else []
  if 3 ≤ added.length then
    let snippet := jsJoin "\n" (added.map Prod.fst)
    let c := analyzeWithCopilot (transport s.statsCalls) snippet f.file h.newStart s
    (lineF ++ funcF ++ astF ++ c.1, c.2)
  else
    (lineF ++ funcF ++ astF, s)

def analyzeHunks (env : Oracles) (transport : Nat → String → Nat → TransportOutcome)
    (f : FileChange) : List Hunk → CopilotState → List Finding × CopilotState
  | [], s => ([], s)
  | h :: rest, s =>
    let x := analyzeHunk env transport f h s
    let y := analyzeHunks env transport f rest x.2
    (x.1 ++ y.1, y.2)

/-- One file of `analyze`: skip deleted files; `.env` scanning, the hunks,
then every plugin over the concatenated hunk contents. -/
def analyzeFile (env : Oracles) (transport : Nat → String → Nat → TransportOutcome)
    (plugins : List Plugin) (f : FileChange) (s : CopilotState) :
    List Finding × CopilotState :=
  if f.type = "deleted" then ([], s)
  else
    let envF :=
      if substrB ".env" f.file && !substrB ".example" f.file then scanEnvFile f
      else []
    let hk := analyzeHunks env transport f f.hunks s
    let plugF :=
      if 0 < plugins.length then
        let fullContent := jsJoin "\n" (f.hunks.map Hunk.content)
        plugins.flatMap fun p => runPlugin p f.file fullContent
      else []
    (envF ++ hk.1 ++ plugF, hk.2)

def analyzeFiles (env : Oracles) (transport : Nat → String → Nat → TransportOutcome)
    (plugins : List Plugin) : List FileChange → CopilotState →
    List Finding × CopilotState
  | [], s => ([], s)
  | f :: rest, s =>
    let x := analyzeFile env transport plugins f s
    let y := analyzeFiles env transport plugins rest x.2
    (x.1 ++ y.1, y.2)

/-! ### Deduplication and the `analyze` entry point -/

/-- JS string interpolation of a possibly-null line number. -/
def lineKeyStr : Option Nat → String
  | none => "null"
  | some n => toString n

/-- The dedup key `` `${f.file}:${f.line}:${f.message.slice(0, 50)}` ``. -/
def dedupKey (f : Finding) : String :=
  f.file ++ ":" ++ lineKeyStr f.line ++ ":" ++ f.message.take 50

def dedupGo (seen : List String) : List Finding → List Finding
  | [] => []
  | f :: rest =>
    if dedupKey f ∈ seen then dedupGo seen rest
    else f :: dedupGo (dedupKey f :: seen) rest

/-- `deduplicateFindings(findings)`. -/
def deduplicateFindings (findings : List Finding) : List Finding :=
  dedupGo [] findings

/-- Step 8 of `analyze`: when an ML filter is present (and the list is
non-empty), keep only the findings `shouldReport` approves of. -/
def mlApply (fpFilter : Option (String → Except Unit String))
    (res : List Finding) : List Finding :=
  match fpFilter with
  | some categorize =>
    if 0 < res.length then
      res.filter fun f =>
        (FalsePositiveFilter.shouldReport categorize
          { message := f.message, context := none, file := some f.file }).shouldReport
    else res
  | none => res

/-- `analyze(files, options)`.  `plugins` is the validated result of
`loadPlugins(repoRoot)` (filesystem discovery is outside the model);
`mlInit` is the `categorize` oracle of a successfully initialized
`FalsePositiveFilter`, or `none` when construction/initialization threw.
The returned state is the copilot module state after the run. -/
def analyze (env : Oracles) (transport : Nat → String → Nat → TransportOutcome)
    (plugins : List Plugin) (useML : Bool)
    (mlInit : Option (String → Except Unit String))
    (files : List FileChange) (s : CopilotState) : List Finding × CopilotState :=
  let fpFilter := if useML then mlInit else none
  let run := analyzeFiles env transport plugins files s
  (mlApply fpFilter (deduplicateFindings run.1), run.2)

/-! ## Concrete instances used by the evaluations below -/

/-- Oracles for runs whose inputs never reach the entropy/base64/AST
layers' oracle calls. -/
def env0 : Oracles :=
  { entropy := fun _ => 0, b64decode := fun _ => "", parse := fun _ _ => none }

/-- A transport on which the external tool is permanently absent. -/
def transport0 : Nat → String → Nat → TransportOutcome := fun _ _ _ => .notFound

/-- A module state whose circuit breaker has already opened. -/
def openBreakerState : CopilotState :=
  { initialCopilotState with circuitOpen := true, consecutiveFailures := 3 }

/-- The secret-literal input of the spec's testable property. -/
def c7line : String := "const apiKey = \"ghp_aaaaaaaaaaaaaaaaaaaa\""

def c7file : FileChange :=
  { file := "src/app.js", type := "modified",
    hunks := [{ newStart := 1, content := c7line,
                changes := [{ type := .add, content := c7line, ln := some 1, ln2 := none }] }] }

/-- The empty-catch input of the spec's testable property, as one added line. -/
def c8line : String := "try \x7b f() \x7d catch (e) \x7b\x7d"

def c8file1 : FileChange :=
  { file := "file.js", type := "modified",
    hunks := [{ newStart := 1, content := c8line,
                changes := [{ type := .add, content := c8line, ln := some 1, ln2 := none }] }] }

/-- The same empty-catch code spread over three added lines (the minimum at
which the structural pass runs). -/
def c8l1 : String := "try \x7b"
def c8l2 : String := "  f()"
def c8l3 : String := "\x7d catch (e) \x7b\x7d"

def c8snippet : String := c8l1 ++ "\n" ++ c8l2 ++ "\n" ++ c8l3

/-- The Babel parse of `c8snippet`: a try statement whose catch clause body
is empty (catch clause on line 3). -/
def c8ast : JsAst :=
  .program [.tryStmt 1 [.exprStmt 2 (.callExpr 2 (.identNode 2 "f") [])]
              [.catchClause 3 (some "e") []]]

def c8env : Oracles :=
  { entropy := fun _ => 0, b64decode := fun _ => "",
    parse := fun code filename =>
      if code = c8snippet && filename = "file.js" then some c8ast else none }

def c8file3 : FileChange :=
  { file := "file.js", type := "modified",
    hunks := [{ newStart := 1, content := c8snippet,
                changes := [{ type := .add, content := c8l1, ln := some 1, ln2 := none },
                            { type := .add, content := c8l2, ln := some 2, ln2 := none },
                            { type := .add, content := c8l3, ln := some 3, ln2 := none }] }] }

/-- A plugin whose `analyze` always throws. -/
def badPlugin : Plugin :=
  { name := "bad-rule", severity := some .warning, analyze := fun _ _ => .throws }

/-- A plugin whose `analyze` returns a malformed finding: an array whose
single entry is an object with no `line`, `severity` or `message` (JS
`[{}]`).  Property access on such an entry does not throw, so the source's
`map` runs through it. -/
def malformedPlugin : Plugin :=
  { name := "mal-rule", severity := some .warning,
    analyze := fun _ _ => .arr [.obj none none none] }

/-- The plugin outcomes the sandbox actually silences to zero findings: a
thrown exception, a non-array return value, or an array containing a
non-object (nullish) entry — the one malformed-entry shape on which the
source's `map` throws.  A malformed *object* entry (fields missing) is NOT
silenced: `runPlugin` emits a fallback finding for it (see the C6
counterexample below). -/
def badPluginOutcome (o : PluginOutcome) : Prop :=
  o = .throws ∨ o = .nonArray ∨
    ∃ entries, o = .arr entries ∧ PluginEntry.nullish ∈ entries

/-! ## Supporting lemmas -/

lemma recordFailure_statsFailures (s : CopilotState) :
    (recordFailure s).statsFailures = s.statsFailures + 1 := by
  unfold recordFailure; dsimp only; split <;> rfl

lemma recordFailure_consecutiveFailures (s : CopilotState) :
    (recordFailure s).consecutiveFailures = s.consecutiveFailures + 1 := by
  unfold recordFailure; dsimp only; split <;> rfl

lemma lookup_map_replace (k v : String) :
    ∀ (m : List (String × String)), (m.lookup k).isSome →
      (m.map fun p => if p.1 = k then (k, v) else p).lookup k = some v := by
  intro m
  induction m with
  | nil => intro h; simp [List.lookup] at h
  | cons p rest ih =>
    intro h
    by_cases hk : p.1 = k
    · simp only [List.map_cons, if_pos hk]
      simp [List.lookup]
    · have hb : (k == p.1) = false := by
        simp [beq_eq_false_iff_ne]
        exact fun e => hk e.symm
      simp only [List.map_cons, if_neg hk]
      rw [List.lookup] at h ⊢
      simp only [hb] at h ⊢
      exact ih h

lemma lookup_append_single (k v : String) :
    ∀ (m : List (String × String)), (m.lookup k) = none →
      (m ++ [(k, v)]).lookup k = some v := by
  intro m
  induction m with
  | nil => simp [List.lookup]
  | cons p rest ih =>
    intro h
    rw [List.lookup] at h
    rw [List.cons_append, List.lookup]
    cases hb : (k == p.1) with
    | true => simp [hb] at h
    | false => simp only [hb] at h ⊢; exact ih h

lemma lookup_cacheSet (m : List (String × String)) (k v : String) :
    (cacheSet m k v).lookup k = some v := by
  unfold cacheSet
  split
  · exact lookup_map_replace k v m (by assumption)
  · apply lookup_append_single
    rename_i h
    cases he : m.lookup k with
    | none => rfl
    | some x => rw [he] at h; simp at h

/-- A not-found outcome at attempt `k` (after `k` retried failures) sets the
availability flag and leaves breaker and cache untouched. -/
lemma askLoop_notFound (t : Nat → TransportOutcome) (key : String) :
    ∀ (k rem attempt : Nat) (s : CopilotState), k ≤ rem →
      t (attempt + k) = .notFound →
      (∀ j, j < k → t (attempt + j) = .timeout ∨ t (attempt + j) = .genericError) →
      (askLoop t key s attempt rem).result = none ∧
      (askLoop t key s attempt rem).state.copilotAvailable = some false ∧
      (askLoop t key s attempt rem).state.consecutiveFailures = s.consecutiveFailures ∧
      (askLoop t key s attempt rem).state.circuitOpen = s.circuitOpen ∧
      (askLoop t key s attempt rem).state.sessionCache = s.sessionCache := by
  intro k
  induction k with
  | zero =>
    intro rem attempt s hk ht hprev
    rw [Nat.add_zero] at ht
    cases rem with
    | zero => simp [askLoop, ht]
    | succ n => simp [askLoop, ht]
  | succ k ih =>
    intro rem attempt s hk ht hprev
    cases rem with
    | zero => omega
    | succ n =>
      have h0 := hprev 0 (by omega)
      rw [Nat.add_zero] at h0
      have ht' : t (attempt + 1 + k) = .notFound := by
        rw [show attempt + 1 + k = attempt + (k + 1) by omega]; exact ht
      have hprev' : ∀ j, j < k →
          t (attempt + 1 + j) = .timeout ∨ t (attempt + 1 + j) = .genericError := by
        intro j hj
        rw [show attempt + 1 + j = attempt + (j + 1) by omega]
        exact hprev (j + 1) (by omega)
      cases h0 with
      | inl h =>
        have := ih n (attempt + 1) { s with statsRetries := s.statsRetries + 1 }
          (by omega) ht' hprev'
        simp only [askLoop, h]
        exact this
      | inr h =>
        have := ih n (attempt + 1) { s with statsRetries := s.statsRetries + 1 }
          (by omega) ht' hprev'
        simp only [askLoop, h]
        exact this

/-- The loop can only open a closed breaker through `recordFailure`, which
runs exactly when the final attempt (index `attempt + rem`) times out or
fails generically. -/
lemma askLoop_open_only_exhaust (t : Nat → TransportOutcome) (key : String) :
    ∀ (rem attempt : Nat) (s : CopilotState), s.circuitOpen = false →
      (askLoop t key s attempt rem).state.circuitOpen = true →
      t (attempt + rem) = .timeout ∨ t (attempt + rem) = .genericError := by
  intro rem
  induction rem with
  | zero =>
    intro attempt s h hopen
    rw [Nat.add_zero]
    cases hcase : t attempt with
    | success out =>
      simp [askLoop, hcase, askSuccess] at hopen
      rw [h] at hopen; exact absurd hopen (by simp)
    | notFound =>
      simp [askLoop, hcase] at hopen
      rw [h] at hopen; exact absurd hopen (by simp)
    | timeout => exact Or.inl rfl
    | genericError => exact Or.inr rfl
  | succ n ih =>
    intro attempt s h hopen
    cases hcase : t attempt with
    | success out =>
      simp [askLoop, hcase, askSuccess] at hopen
      rw [h] at hopen; exact absurd hopen (by simp)
    | notFound =>
      simp [askLoop, hcase] at hopen
      rw [h] at hopen; exact absurd hopen (by simp)
    | timeout =>
      simp only [askLoop, hcase] at hopen
      have := ih (attempt + 1) { s with statsRetries := s.statsRetries + 1 } h hopen
      rw [show attempt + 1 + n = attempt + (n + 1) by omega] at this
      exact this
    | genericError =>
      simp only [askLoop, hcase] at hopen
      have := ih (attempt + 1) { s with statsRetries := s.statsRetries + 1 } h hopen
      rw [show attempt + 1 + n = attempt + (n + 1) by omega] at this
      exact this

lemma dedupGo_pairwise : ∀ (l : List Finding) (seen : List String),
    (dedupGo seen l).Pairwise (fun a b => dedupKey a ≠ dedupKey b) ∧
    ∀ g ∈ dedupGo seen l, dedupKey g ∉ seen := by
  intro l
  induction l with
  | nil => intro seen; simp [dedupGo]
  | cons f rest ih =>
    intro seen
    by_cases h : dedupKey f ∈ seen
    · rw [dedupGo, if_pos h]
      exact ih seen
    · rw [dedupGo, if_neg h]
      obtain ⟨hp, hni⟩ := ih (dedupKey f :: seen)
      refine ⟨List.Pairwise.cons ?_ hp, ?_⟩
      · intro g hg he
        apply hni g hg
        rw [← he]
        exact List.mem_cons_self _ _
      · intro g hg
        rcases List.mem_cons.1 hg with rfl | hg'
        · exact h
        · intro hs
          exact (hni g hg') (List.mem_cons_of_mem _ hs)

/-- An element survives `dedupGo` exactly when it is the first element of
the input carrying its key (and the key was not already seen). -/
lemma mem_dedupGo_iff : ∀ (l : List Finding) (seen : List String) (g : Finding),
    g ∈ dedupGo seen l ↔
      (dedupKey g ∉ seen ∧ l.find? (fun x => dedupKey x == dedupKey g) = some g) := by
  intro l
  induction l with
  | nil => intro seen g; simp [dedupGo, List.find?]
  | cons f rest ih =>
    intro seen g
    by_cases h : dedupKey f ∈ seen
    · rw [dedupGo, if_pos h, ih seen g]
      constructor
      · rintro ⟨hg, hf⟩
        refine ⟨hg, ?_⟩
        rw [List.find?]
        cases hpf : (dedupKey f == dedupKey g) with
        | false => exact hf
        | true =>
          exfalso
          apply hg
          rw [← beq_iff_eq.1 hpf]
          exact h
      · rintro ⟨hg, hf⟩
        rw [List.find?] at hf
        cases hpf : (dedupKey f == dedupKey g) with
        | true =>
          rw [hpf] at hf
          have hfg : f = g := by injection hf
          exfalso
          apply hg
          rw [← beq_iff_eq.1 hpf]
          exact h
        | false =>
          rw [hpf] at hf
          exact ⟨hg, hf⟩
    · rw [dedupGo, if_neg h]
      rw [List.mem_cons, ih (dedupKey f :: seen) g]
      constructor
      · rintro (rfl | ⟨hg, hf⟩)
        · refine ⟨h, ?_⟩
          rw [List.find?]
          simp
        · have hne : dedupKey f ≠ dedupKey g := by
            intro e
            apply hg
            rw [← e]
            exact List.mem_cons_self _ _
          refine ⟨fun hs => hg (List.mem_cons_of_mem _ hs), ?_⟩
          rw [List.find?]
          have hb : (dedupKey f == dedupKey g) = false := by
            simp [beq_eq_false_iff_ne]; exact hne
          rw [hb]
          exact hf
      · rintro ⟨hg, hf⟩
        rw [List.find?] at hf
        cases hpf : (dedupKey f == dedupKey g) with
        | true =>
          rw [hpf] at hf
          have hfg : f = g := by injection hf
          exact Or.inl hfg.symm
        | false =>
          rw [hpf] at hf
          refine Or.inr ⟨?_, hf⟩
          intro hmem
          rcases List.mem_cons.1 hmem with he | hs
          · have hne : dedupKey f ≠ dedupKey g := by
              simpa [beq_eq_false_iff_ne] using hpf
            exact hne he.symm
          · exact hg hs

lemma runPlugin_bad (p : Plugin) (file content : String)
    (h : badPluginOutcome (p.analyze file content)) :
    runPlugin p file content = [] := by
  unfold runPlugin
  rcases h with h | h | ⟨entries, he, hm⟩
  · rw [h]
  · rw [h]
  · rw [he]
    have ha : entries.any (fun e => match e with | .nullish => true | _ => false) = true := by
      rw [List.any_eq_true]
      exact ⟨.nullish, hm, rfl⟩
    simp [ha]

lemma length_guard_flatMap (ps : List Plugin) (g : Plugin → List Finding) :
    (if 0 < ps.length then ps.flatMap g else []) = ps.flatMap g := by
  cases ps <;> simp

lemma analyzeFile_bad_plugin (env : Oracles)
    (transport : Nat → String → Nat → TransportOutcome) (p : Plugin)
    (l1 l2 : List Plugin) (f : FileChange) (s : CopilotState)
    (hbad : ∀ file content, badPluginOutcome (p.analyze file content)) :
    analyzeFile env transport (l1 ++ p :: l2) f s =
      analyzeFile env transport (l1 ++ l2) f s := by
  unfold analyzeFile
  by_cases hd : f.type = "deleted"
  · rw [if_pos hd, if_pos hd]
  · rw [if_neg hd, if_neg hd]
    have hpl : (if 0 < (l1 ++ p :: l2).length then
          (l1 ++ p :: l2).flatMap (fun q => runPlugin q f.file
            (jsJoin "\n" (f.hunks.map Hunk.content))) else []) =
        (if 0 < (l1 ++ l2).length then
          (l1 ++ l2).flatMap (fun q => runPlugin q f.file
            (jsJoin "\n" (f.hunks.map Hunk.content))) else []) := by
      rw [length_guard_flatMap, length_guard_flatMap]
      rw [List.flatMap_append, List.flatMap_append, List.flatMap_cons]
      rw [runPlugin_bad p _ _ (hbad _ _)]
      simp
    simp only [hpl]

lemma analyzeFiles_bad_plugin (env : Oracles)
    (transport : Nat → String → Nat → TransportOutcome) (p : Plugin)
    (l1 l2 : List Plugin)
    (hbad : ∀ file content, badPluginOutcome (p.analyze file content)) :
    ∀ (files : List FileChange) (s : CopilotState),
      analyzeFiles env transport (l1 ++ p :: l2) files s =
        analyzeFiles env transport (l1 ++ l2) files s := by
  intro files
  induction files with
  | nil => intro s; rfl
  | cons f rest ih =>
    intro s
    unfold analyzeFiles
    rw [analyzeFile_bad_plugin env transport p l1 l2 f s hbad]
    dsimp only
    rw [ih]

/-! ## The claims -/

/-- Claim C1: once the circuit breaker is open, every `askCopilot` call
returns `null` immediately, makes zero transport attempts, leaves the state
(including the open flag) untouched; consequently a whole run of subsequent
calls all return `null` with the breaker still open, and clearing the cache
does not reset the breaker either. -/
theorem C1_breaker_open_permanent :
    (∀ (t : Nat → TransportOutcome) (prompt : String) (retries : Nat) (s : CopilotState),
      s.circuitOpen = true →
      askCopilot t prompt retries s = { result := none, state := s, attempts := 0, delays := [] }) ∧
    (∀ (calls : List ((Nat → TransportOutcome) × String × Nat)) (s : CopilotState),
      s.circuitOpen = true →
      runCalls calls s = (calls.map fun _ => none, s)) ∧
    (∀ s : CopilotState, (clearCopilotCache s).circuitOpen = s.circuitOpen) := by
  have hask : ∀ (t : Nat → TransportOutcome) (prompt : String) (retries : Nat) (s : CopilotState),
      s.circuitOpen = true →
      askCopilot t prompt retries s = { result := none, state := s, attempts := 0, delays := [] } := by
    intro t prompt retries s h
    unfold askCopilot
    by_cases hav : s.copilotAvailable = some false
    · simp [hav]
    · simp [hav, h]
  refine ⟨hask, ?_, fun s => rfl⟩
  intro calls
  induction calls with
  | nil => intro s h; rfl
  | cons c rest ih =>
    intro s h
    obtain ⟨t, p, r⟩ := c
    show runCalls ((t, p, r) :: rest) s = _
    unfold runCalls
    rw [hask t p r s h]
    simp [ih s h]

/-- Witness for C1 at a concrete open-breaker state. -/
theorem C1_breaker_open_permanent_witness :
    askCopilot (fun _ => .timeout) "q" 3 openBreakerState =
      { result := none, state := openBreakerState, attempts := 0, delays := [] } ∧
    runCalls [(fun _ => .timeout, "q", 3)] openBreakerState =
      ([none], openBreakerState) ∧
    (clearCopilotCache openBreakerState).circuitOpen = openBreakerState.circuitOpen :=
  ⟨C1_breaker_open_permanent.1 _ "q" 3 openBreakerState rfl,
   C1_breaker_open_permanent.2.1 _ openBreakerState rfl,
   C1_breaker_open_permanent.2.2 openBreakerState⟩

/-- Claim C2: with `retries = 3` against an always-timeout transport, a
cache-missing call on a closed breaker makes exactly 4 transport attempts,
sleeps the non-decreasing backoffs 1s, 2s, 4s between them, returns `null`,
and records exactly one breaker failure. -/
theorem C2_retry_backoff (s : CopilotState) (prompt : String)
    (h1 : s.copilotAvailable ≠ some false) (h2 : s.circuitOpen = false)
    (h3 : s.sessionCache.lookup ((jsTrim prompt).take 200) = none) :
    (askCopilot (fun _ => .timeout) prompt 3 s).attempts = 4 ∧
    (askCopilot (fun _ => .timeout) prompt 3 s).delays = [1000, 2000, 4000] ∧
    List.Chain' (· ≤ ·) (askCopilot (fun _ => .timeout) prompt 3 s).delays ∧
    (askCopilot (fun _ => .timeout) prompt 3 s).result = none ∧
    (askCopilot (fun _ => .timeout) prompt 3 s).state.statsFailures = s.statsFailures + 1 ∧
    (askCopilot (fun _ => .timeout) prompt 3 s).state.consecutiveFailures
      = s.consecutiveFailures + 1 := by
  have e : askCopilot (fun _ => .timeout) prompt 3 s =
      askLoop (fun _ => .timeout) ((jsTrim prompt).take 200)
        { s with statsCalls := s.statsCalls + 1 } 0 3 := by
    unfold askCopilot
    simp [h1, h2, h3]
  rw [e]
  simp [askLoop, recordFailure_statsFailures, recordFailure_consecutiveFailures]

/-- Witness for C2 at the pristine module state. -/
theorem C2_retry_backoff_witness :
    (askCopilot (fun _ => .timeout) "q" 3 initialCopilotState).attempts = 4 ∧
    (askCopilot (fun _ => .timeout) "q" 3 initialCopilotState).delays = [1000, 2000, 4000] ∧
    List.Chain' (· ≤ ·) (askCopilot (fun _ => .timeout) "q" 3 initialCopilotState).delays ∧
    (askCopilot (fun _ => .timeout) "q" 3 initialCopilotState).result = none ∧
    (askCopilot (fun _ => .timeout) "q" 3 initialCopilotState).state.statsFailures
      = initialCopilotState.statsFailures + 1 ∧
    (askCopilot (fun _ => .timeout) "q" 3 initialCopilotState).state.consecutiveFailures
      = initialCopilotState.consecutiveFailures + 1 :=
  C2_retry_backoff initialCopilotState "q" (by decide) rfl rfl

/-- Claim C3: two `askCopilot` calls with an identical prompt, the first
succeeding, make exactly one transport invocation in total: the first call
attempts once and stores the trimmed response under the key
`prompt.trim().slice(0, 200)`, the second hits the session cache (zero
attempts, any transport) and returns the stored trimmed response. -/
theorem C3_session_cache_single_invocation (s : CopilotState) (prompt out : String)
    (t1 t2 : Nat → TransportOutcome) (r1n r2n : Nat)
    (h1 : s.copilotAvailable ≠ some false) (h2 : s.circuitOpen = false)
    (h3 : s.sessionCache.lookup ((jsTrim prompt).take 200) = none)
    (ht : t1 0 = .success out) :
    (askCopilot t1 prompt r1n s).attempts = 1 ∧
    (askCopilot t1 prompt r1n s).result = some (jsTrim out) ∧
    (askCopilot t2 prompt r2n (askCopilot t1 prompt r1n s).state).attempts = 0 ∧
    (askCopilot t2 prompt r2n (askCopilot t1 prompt r1n s).state).result = some (jsTrim out) ∧
    (askCopilot t1 prompt r1n s).attempts +
      (askCopilot t2 prompt r2n (askCopilot t1 prompt r1n s).state).attempts = 1 := by
  have e1 : askCopilot t1 prompt r1n s =
      askSuccess { s with statsCalls := s.statsCalls + 1 } ((jsTrim prompt).take 200) out := by
    unfold askCopilot
    simp only [h1, h2, h3, if_neg, if_false, ite_false]
    cases r1n with
    | zero => simp [h1, h2, h3, askLoop, ht]
    | succ n => simp [h1, h2, h3, askLoop, ht]
  rw [e1]
  refine ⟨rfl, rfl, ?_, ?_, ?_⟩ <;>
  · unfold askCopilot
    simp [askSuccess, h2, lookup_cacheSet]

/-- Witness for C3 at the pristine module state (the second call is handed
an always-timeout transport, which it never invokes). -/
theorem C3_session_cache_single_invocation_witness :
    (askCopilot (fun _ => .success " resp ") "q" 3 initialCopilotState).attempts = 1 ∧
    (askCopilot (fun _ => .success " resp ") "q" 3 initialCopilotState).result
      = some (jsTrim " resp ") ∧
    (askCopilot (fun _ => .timeout) "q" 3
      (askCopilot (fun _ => .success " resp ") "q" 3 initialCopilotState).state).attempts = 0 ∧
    (askCopilot (fun _ => .timeout) "q" 3
      (askCopilot (fun _ => .success " resp ") "q" 3 initialCopilotState).state).result
      = some (jsTrim " resp ") ∧
    (askCopilot (fun _ => .success " resp ") "q" 3 initialCopilotState).attempts +
      (askCopilot (fun _ => .timeout) "q" 3
        (askCopilot (fun _ => .success " resp ") "q" 3 initialCopilotState).state).attempts = 1 :=
  C3_session_cache_single_invocation initialCopilotState "q" " resp "
    (fun _ => .success " resp ") (fun _ => .timeout) 3 3 (by decide) rfl rfl rfl

/-- Claim C4: the list `analyze` returns never contains two findings with
the same `(file, line, first-50-chars-of-message)` key, and deduplication is
stable: a finding survives `deduplicateFindings` exactly when it is the
first-emitted finding carrying its key. -/
theorem C4_dedup_invariant :
    (∀ (env : Oracles) (transport : Nat → String → Nat → TransportOutcome)
        (plugins : List Plugin) (useML : Bool)
        (mlInit : Option (String → Except Unit String))
        (files : List FileChange) (s : CopilotState),
      ((analyze env transport plugins useML mlInit files s).1).Pairwise
        (fun a b => dedupKey a ≠ dedupKey b)) ∧
    (∀ (l : List Finding) (g : Finding),
      g ∈ deduplicateFindings l ↔
        l.find? (fun x => dedupKey x == dedupKey g) = some g) := by
  constructor
  · intro env transport plugins useML mlInit files s
    have base := (dedupGo_pairwise (analyzeFiles env transport plugins files s).1 []).1
    show (mlApply _ (deduplicateFindings _)).Pairwise _
    unfold mlApply deduplicateFindings
    rcases (if useML then mlInit else none) with _ | c
    · exact base
    · dsimp only
      split
      · exact List.Pairwise.filter _ base
      · exact base
  · intro l g
    rw [deduplicateFindings, mem_dedupGo_iff l [] g]
    simp

/-- Claim C5: with the ML filter disabled, `analyze` is a function of the
input and the external-call responses: two runs from the same state whose
transports agree pointwise (identical responses for every call index,
prompt and attempt) produce identical output lists (and end states).  The
plugin list and parse/entropy oracles are shared, i.e. plugin results and
the other external responses are identical as the claim assumes. -/
theorem C5_analyze_deterministic (env : Oracles) (plugins : List Plugin)
    (mlInit : Option (String → Except Unit String)) (files : List FileChange)
    (s : CopilotState) (t1 t2 : Nat → String → Nat → TransportOutcome)
    (h : ∀ i p n, t1 i p n = t2 i p n) :
    analyze env t1 plugins false mlInit files s =
      analyze env t2 plugins false mlInit files s := by
  have ht : t1 = t2 := funext fun i => funext fun p => funext fun n => h i p n
  rw [ht]

/-- Witness for C5 on the secret-literal input. -/
theorem C5_analyze_deterministic_witness :
    analyze env0 transport0 [] false none [c7file] initialCopilotState =
      analyze env0 (fun _ _ _ => .notFound) [] false none [c7file] initialCopilotState :=
  C5_analyze_deterministic env0 [] none [c7file] initialCopilotState
    transport0 (fun _ _ _ => .notFound) (fun _ _ _ => rfl)

/-- Claim C6 counterexample: a plugin that returns a malformed finding — an
array whose entry is an object with no fields (JS `[{}]`) — does NOT yield
zero findings: `runPlugin` returns one fallback finding with message
`"[mal-rule] undefined"` and the plugin's declared severity, refuting
"returns malformed findings ⇒ zero findings for that plugin on that
file". -/
theorem C6_counterexample :
    runPlugin malformedPlugin "a.js" "x" =
      [{ file := "a.js", line := none, severity := .warning,
         message := "[mal-rule] undefined", source := .plugin }] ∧
    runPlugin malformedPlugin "a.js" "x" ≠ [] := by decide

/-- Claim C6 (amended): a plugin whose `analyze` throws, returns a
non-array value, or returns an array containing a non-object (nullish)
entry — the malformed-entry shape on which the source's `map` throws —
contributes zero findings via `runPlugin`, and removing such a plugin from
the plugin list does not change the result of `analyze` at all — other
plugins' findings and built-in layer findings are unaffected.  (A malformed
*object* entry is instead turned into a fallback finding; see the
counterexample.) -/
theorem C6_plugin_isolation :
    (∀ (p : Plugin) (file content : String),
      badPluginOutcome (p.analyze file content) → runPlugin p file content = []) ∧
    (∀ (env : Oracles) (transport : Nat → String → Nat → TransportOutcome)
        (p : Plugin) (l1 l2 : List Plugin) (useML : Bool)
        (mlInit : Option (String → Except Unit String))
        (files : List FileChange) (s : CopilotState),
      (∀ file content, badPluginOutcome (p.analyze file content)) →
      analyze env transport (l1 ++ p :: l2) useML mlInit files s =
        analyze env transport (l1 ++ l2) useML mlInit files s) := by
  constructor
  · intro p file content h
    exact runPlugin_bad p file content h
  · intro env transport p l1 l2 useML mlInit files s hbad
    unfold analyze
    rw [analyzeFiles_bad_plugin env transport p l1 l2 hbad files s]

/-- Witness for C6: the always-throwing `badPlugin` yields no findings and
its presence does not change the analysis of the secret-literal input. -/
theorem C6_plugin_isolation_witness :
    runPlugin badPlugin "a.js" "x" = [] ∧
    analyze env0 transport0 (badPlugin :: []) false none [c7file] initialCopilotState =
      analyze env0 transport0 [] false none [c7file] initialCopilotState :=
  ⟨C6_plugin_isolation.1 badPlugin "a.js" "x" (Or.inl rfl),
   C6_plugin_isolation.2 env0 transport0 badPlugin [] [] false none [c7file]
     initialCopilotState (fun _ _ => Or.inl rfl)⟩

/-- Claim C7 counterexample: on the secret-literal line the pipeline emits
TWO findings, not exactly one — the heuristic hardcoded-secret rule and the
entropy known-prefix detector both fire, their messages differ, and
deduplication keeps both.  Both findings sit on that line. -/
theorem C7_counterexample :
    ((analyze env0 transport0 [] false none [c7file] initialCopilotState).1).length = 2 ∧
    ∀ g ∈ (analyze env0 transport0 [] false none [c7file] initialCopilotState).1,
      g.line = some 1 ∧ g.severity = Severity.critical := by decide

/-- Claim C7 (amended): the secret-literal input yields exactly two
findings at that line, both `critical`: the first tagged `heuristic`, the
second tagged `entropy`. -/
theorem C7_secret_literal_two_findings :
    (analyze env0 transport0 [] false none [c7file] initialCopilotState).1 =
      [{ file := "src/app.js", line := some 1, severity := .critical,
         message := "Potential hardcoded secret or credential: const apiKey = \"ghp_aaaaaaaaaaaaaaaaaaaa\"",
         source := .heuristic },
       { file := "src/app.js", line := some 1, severity := .critical,
         message := "Known secret prefix detected: ghp_aaaaaaaaaaaaaaaaaaaa...",
         source := .entropy }] := by decide

/-- Claim C8 counterexample: with the empty-catch code as a single added
line, `analyze` returns no findings at all — the structural (AST) pass is
gated on at least 3 added lines, so no swallowed-errors warning is
produced. -/
theorem C8_counterexample :
    (analyze env0 transport0 [] false none [c8file1] initialCopilotState).1 = [] := by decide

/-- Claim C8 (amended): with the empty-catch code spread over three added
lines (so the structural pass runs) and the Babel parse of the snippet, the
pipeline returns exactly one `warning` finding whose message states that
errors are silently swallowed. -/
theorem C8_empty_catch_warning :
    (analyze c8env transport0 [] false none [c8file3] initialCopilotState).1 =
      [{ file := "file.js", line := some 3, severity := .warning,
         message := "Empty catch block — errors are silently swallowed",
         source := .ast }] := by decide

/-- Claim C9: if the underlying classifier's `categorize` call throws,
`FalsePositiveFilter.shouldReport` fails open and reports the finding. -/
theorem C9_classifier_fail_open (categorize : String → Except Unit String)
    (f : FpFinding) (h : categorize (buildFeatureText f) = .error ()) :
    (FalsePositiveFilter.shouldReport categorize f).shouldReport = true := by
  unfold FalsePositiveFilter.shouldReport
  rw [h]

/-- Witness for C9 with an always-throwing classifier. -/
theorem C9_classifier_fail_open_witness :
    (FalsePositiveFilter.shouldReport (fun _ => .error ())
      { message := "Potential hardcoded secret", context := none,
        file := some "a.js" }).shouldReport = true :=
  C9_classifier_fail_open (fun _ => .error ())
    { message := "Potential hardcoded secret", context := none, file := some "a.js" } rfl

/-- Claim C10: a call whose transport ends with a not-found outcome (after
any retried timeout/generic failures) returns `null`, sets the availability
flag to `false`, and leaves the breaker counter, the open flag and the
session cache unchanged; and a closed breaker can only open when the final
attempt (index `retries`) is a timeout or generic failure — never through a
not-found outcome. -/
theorem C10_notfound_frame :
    (∀ (s : CopilotState) (t : Nat → TransportOutcome) (prompt : String) (retries k : Nat),
      s.copilotAvailable ≠ some false → s.circuitOpen = false →
      s.sessionCache.lookup ((jsTrim prompt).take 200) = none →
      k ≤ retries → t k = .notFound →
      (∀ j, j < k → t j = .timeout ∨ t j = .genericError) →
      (askCopilot t prompt retries s).result = none ∧
      (askCopilot t prompt retries s).state.copilotAvailable = some false ∧
      (askCopilot t prompt retries s).state.consecutiveFailures = s.consecutiveFailures ∧
      (askCopilot t prompt retries s).state.circuitOpen = s.circuitOpen ∧
      (askCopilot t prompt retries s).state.sessionCache = s.sessionCache) ∧
    (∀ (t : Nat → TransportOutcome) (prompt : String) (retries : Nat) (s : CopilotState),
      s.circuitOpen = false →
      (askCopilot t prompt retries s).state.circuitOpen = true →
      t retries = .timeout ∨ t retries = .genericError) := by
  constructor
  · intro s t prompt retries k h1 h2 h3 hk ht hprev
    have e : askCopilot t prompt retries s =
        askLoop t ((jsTrim prompt).take 200) { s with statsCalls := s.statsCalls + 1 } 0 retries := by
      unfold askCopilot
      simp [h1, h2, h3]
    rw [e]
    exact askLoop_notFound t ((jsTrim prompt).take 200) k retries 0
      { s with statsCalls := s.statsCalls + 1 } hk (by rw [Nat.zero_add]; exact ht)
      (fun j hj => by rw [Nat.zero_add]; exact hprev j hj)
  · intro t prompt retries s h hopen
    by_cases hav : s.copilotAvailable = some false
    · have e : askCopilot t prompt retries s =
          { result := none, state := s, attempts := 0, delays := [] } := by
        unfold askCopilot; rw [if_pos hav]
      rw [e] at hopen
      exact absurd hopen (by simp [h])
    · cases hl : (s.sessionCache.lookup ((jsTrim prompt).take 200)) with
      | some v =>
        have e : askCopilot t prompt retries s =
            { result := some v, state := { s with statsCacheHits := s.statsCacheHits + 1 },
              attempts := 0, delays := [] } := by
          unfold askCopilot; simp [hav, h, hl]
        rw [e] at hopen
        exact absurd hopen (by simp [h])
      | none =>
        have e : askCopilot t prompt retries s =
            askLoop t ((jsTrim prompt).take 200)
              { s with statsCalls := s.statsCalls + 1 } 0 retries := by
          unfold askCopilot; simp [hav, h, hl]
        rw [e] at hopen
        have hcl : ({ s with statsCalls := s.statsCalls + 1 } : CopilotState).circuitOpen = false := h
        have := askLoop_open_only_exhaust t ((jsTrim prompt).take 200) retries 0
          { s with statsCalls := s.statsCalls + 1 } hcl hopen
        rw [Nat.zero_add] at this
        exact this

/-- Witness for C10: a pristine state against an immediately-absent tool. -/
theorem C10_notfound_frame_witness :
    (askCopilot (fun _ => .notFound) "q" 3 initialCopilotState).result = none ∧
    (askCopilot (fun _ => .notFound) "q" 3 initialCopilotState).state.copilotAvailable
      = some false ∧
    (askCopilot (fun _ => .notFound) "q" 3 initialCopilotState).state.consecutiveFailures
      = initialCopilotState.consecutiveFailures ∧
    (askCopilot (fun _ => .notFound) "q" 3 initialCopilotState).state.circuitOpen
      = initialCopilotState.circuitOpen ∧
    (askCopilot (fun _ => .notFound) "q" 3 initialCopilotState).state.sessionCache
      = initialCopilotState.sessionCache :=
  C10_notfound_frame.1 initialCopilotState (fun _ => .notFound) "q" 3 0
    (by decide) rfl rfl (by omega) rfl (fun j hj => absurd hj (by omega))

end ReviewPilot
